import Mathlib

/-!
Verification of the settings-screen state-transition contract of
`src/pages/SettingsPage.tsx` (a React settings/preferences component for a
news-digest application).

The component's own handlers (`toggleTopic`, `handlePersonaChange`,
`handleCityChange`, `handleNotificationChange`, `handleHardReset`,
`handleExportData`, `handleFileChange`, `handleToggleTheme`, the mount-time
load effect) are embedded directly from the source file.  The external
collaborators (the storage service, the notification service and the data
types they own) are not part of the source tree; they are modelled from the
specification's description of their contracts, and each such definition is
marked `Modelled from the spec:` in its doc comment.
-/

namespace Settings

/-- Modelled from the spec: the theme field of the user profile,
`light | dark` (the storage service owns the type; src only imports it). -/
inductive Theme where
  | light
  | dark
deriving DecidableEq, Repr

/-- Modelled from the spec: the `NotificationFrequency` enumeration
(`off/daily/every-other-day/three-times-daily/weekly`) from `types.ts`,
which is not under src. -/
inductive NotificationFrequency where
  | off
  | daily
  | everyOther
  | threeTimesDay
  | weekly
deriving DecidableEq, Repr

/-- Modelled from the spec: the browser notification permission state
returned by `getNotificationPermission` (`granted`, `denied`, `default`). -/
inductive Perm where
  | granted
  | denied
  | defaultPerm
deriving DecidableEq, Repr

/-- Modelled from the spec: `UserProfile` — persona (enumerated reading
mode, held opaque as a string id), city (free text), theme, notification
frequency.  Field names follow the accesses made in `SettingsPage.tsx`
(`profile.selectedPersona`, `profile.city`, `profile.theme`,
`profile.notificationFrequency`). -/
structure UserProfile where
  selectedPersona : String
  city : String
  theme : Theme
  notificationFrequency : NotificationFrequency
deriving DecidableEq, Repr

/-- Modelled from the spec: the state held by the external storage service —
the saved selected topic ids and the saved user profile. -/
structure Store where
  selectedTopicIds : List String
  profile : UserProfile
deriving DecidableEq, Repr

/-- Modelled from the spec: the store's initial default state, reached after
a hard reset: no selected topics and the default profile (the defaults the
component itself uses: default persona, empty city, light theme, daily
notifications). -/
def initialStore : Store :=
  { selectedTopicIds := []
  , profile :=
    { selectedPersona := "DEFAULT"
    , city := ""
    , theme := Theme.light
    , notificationFrequency := NotificationFrequency.daily } }

/-- Modelled from the spec: storage service `getSelectedTopicIds`. -/
def getSelectedTopicIds (st : Store) : List String :=
  st.selectedTopicIds

/-- Modelled from the spec: storage service `saveSelectedTopicIds`. -/
def saveSelectedTopicIds (ids : List String) (st : Store) : Store :=
  { st with selectedTopicIds := ids }

/-- Modelled from the spec: storage service `getUserProfile`. -/
def getUserProfile (st : Store) : UserProfile :=
  st.profile

/-- Modelled from the spec: storage service `saveUserProfile`. -/
def saveUserProfile (p : UserProfile) (st : Store) : Store :=
  { st with profile := p }

/-- Modelled from the spec: storage service `setPersona`, which sets the
persona field of the stored profile (read-modify-write per §4.2). -/
def setPersona (p : String) (st : Store) : Store :=
  { st with profile := { st.profile with selectedPersona := p } }

/-- Modelled from the spec: storage service `toggleTheme` — flips the stored
theme and returns the new theme. -/
def toggleTheme (st : Store) : Theme × Store :=
  let newTheme := match st.profile.theme with
    | Theme.light => Theme.dark
    | Theme.dark => Theme.light
  (newTheme, { st with profile := { st.profile with theme := newTheme } })

/-- Modelled from the spec: storage service `hardResetApp` — irreversibly
wipes all persisted state, leaving the store in its initial default state. -/
def hardResetApp (_st : Store) : Store :=
  initialStore

/-- The component's local view state: the `useState` hooks of
`SettingsPage.tsx` that the verified contract touches (`selectedIds`,
`currentPersona`, `city`, `theme`, `notificationFreq`, `notificationPerm`). -/
structure View where
  selectedIds : List String
  currentPersona : String
  city : String
  theme : Theme
  notificationFreq : NotificationFrequency
  notificationPerm : Perm
deriving DecidableEq, Repr

/-- The initial view state, from the `useState` initialisers of
`SettingsPage.tsx`: empty selection, default persona, empty city, light
theme, daily frequency. -/
def initialView (perm : Perm) : View :=
  { selectedIds := []
  , currentPersona := "DEFAULT"
  , city := ""
  , theme := Theme.light
  , notificationFreq := NotificationFrequency.daily
  , notificationPerm := perm }

/-- The mount-time `useEffect` of `SettingsPage.tsx`: reads the profile and
the selected topic ids from the store and copies them into the view state. -/
def mountLoad (st : Store) (v : View) : View :=
  { v with
    selectedIds := getSelectedTopicIds st
    currentPersona := (getUserProfile st).selectedPersona
    city := (getUserProfile st).city
    theme := (getUserProfile st).theme
    notificationFreq := (getUserProfile st).notificationFrequency }

/-- `toggleTopic` from `SettingsPage.tsx`: builds the singleton list
`[id]`, stores it in the view state and saves it to the store. -/
def toggleTopic (id : String) (v : View) (st : Store) : View × Store :=
  let newIds := [id]
  ({ v with selectedIds := newIds }, saveSelectedTopicIds newIds st)

/-- `handlePersonaChange` from `SettingsPage.tsx`: updates the view's
persona and calls the storage service's `setPersona`. -/
def handlePersonaChange (p : String) (v : View) (st : Store) : View × Store :=
  ({ v with currentPersona := p }, setPersona p st)

/-- `handleCityChange` from `SettingsPage.tsx`: updates the view's city,
reads the current profile from the store, and writes it back with only the
city field overlaid. -/
def handleCityChange (c : String) (v : View) (st : Store) : View × Store :=
  let profile := getUserProfile st
  ({ v with city := c }, saveUserProfile { profile with city := c } st)

/-- `handleToggleTheme` from `SettingsPage.tsx`: calls the storage
service's `toggleTheme` and records the returned new theme in the view. -/
def handleToggleTheme (v : View) (st : Store) : View × Store :=
  let r := toggleTheme st
  ({ v with theme := r.1 }, r.2)

/-- The platform facts `handleNotificationChange` consults, modelled from
the spec's notification-service contract: whether notifications are
supported (`isNotificationSupported`), the current permission
(`getNotificationPermission`), what a permission request resolves to
(`requestNotificationPermission`, a granted boolean), and the permission
reported by the platform after the request resolves. -/
structure NotifEnv where
  supported : Bool
  permission : Perm
  requestGrants : Bool
  postRequestPermission : Perm
deriving DecidableEq, Repr

/-- The observable outcome of one `handleNotificationChange` call: the new
view state and store, the alerts shown, and which notification-service
queries the call performed. -/
structure NotifResult where
  view : View
  store : Store
  alerts : List String
  queriedSupport : Bool
  queriedPermission : Bool
  requestedPermission : Bool
deriving DecidableEq, Repr

/-- The shared tail of `handleNotificationChange`: set the view's frequency
and save the profile read from the store with only the notification
frequency overlaid. -/
def notifProceed (freq : NotificationFrequency) (v : View) (st : Store)
    (qs qp rp : Bool) (alerts : List String) : NotifResult :=
  let profile := getUserProfile st
  { view := { v with notificationFreq := freq }
  , store := saveUserProfile { profile with notificationFrequency := freq } st
  , alerts := alerts
  , queriedSupport := qs
  , queriedPermission := qp
  , requestedPermission := rp }

/-- `handleNotificationChange` from `SettingsPage.tsx`.  For a non-off
frequency it first checks platform support (alert and abort when missing),
then the current permission; when permission is not granted it requests it,
records the post-request permission in the view, and aborts with an alert
when the request does not resolve granted.  Otherwise it stores the new
frequency in the view and writes the profile back with the frequency
overlaid. -/
def handleNotificationChange (freq : NotificationFrequency) (env : NotifEnv)
    (v : View) (st : Store) : NotifResult :=
  if freq ≠ NotificationFrequency.off then
    if ¬env.supported then
      { view := v, store := st
      , alerts := ["Váš prehliadač nepodporuje notifikácie."]
      , queriedSupport := true, queriedPermission := false
      , requestedPermission := false }
    else if env.permission ≠ Perm.granted then
      let v1 := { v with notificationPerm := env.postRequestPermission }
      if ¬env.requestGrants then
        { view := v1, store := st
        , alerts := ["Notifikácie sú zakázané v systéme."]
        , queriedSupport := true, queriedPermission := true
        , requestedPermission := true }
      else
        notifProceed freq v1 st true true true []
    else
      notifProceed freq v st true true false []
  else
    notifProceed freq v st false false false []

/-- `handleHardReset` from `SettingsPage.tsx`: asks for confirmation; when
confirmed it invokes the storage service's `hardResetApp`, otherwise it does
nothing.  The boolean in the result records whether the wipe routine was
invoked. -/
def handleHardReset (confirmed : Bool) (st : Store) : Store × Bool :=
  if confirmed then (hardResetApp st, true) else (st, false)

/-- Modelled from the spec: a length prefix used by the store's text
serialization — the length in unary (`'1'` marks) terminated by `':'`. -/
def encLen (n : Nat) : List Char :=
  List.replicate n '1'

/-- Modelled from the spec: serialization of one string field as its
length prefix followed by its characters. -/
def encStr (s : List Char) : List Char :=
  encLen s.length ++ ':' :: s

/-- Count the leading `'1'` marks of a length prefix, returning the count
and the remaining input. -/
def takeMarks : List Char → Nat × List Char
  | [] => (0, [])
  | c :: cs =>
    if c = '1' then
      let r := takeMarks cs
      (r.1 + 1, r.2)
    else (0, c :: cs)

/-- Decode one length-prefixed string field; returns the field and the
remaining input, or `none` on malformed input. -/
def decStr (l : List Char) : Option (List Char × List Char) :=
  let r := takeMarks l
  match r.2 with
  | ':' :: rest =>
    if r.1 ≤ rest.length then some (rest.take r.1, rest.drop r.1) else none
  | _ => none

/-- Modelled from the spec: serialization of a list of strings — the count
as a length prefix, then each element as a length-prefixed string. -/
def encStrList (xs : List (List Char)) : List Char :=
  encLen xs.length ++ ':' :: (xs.map encStr).flatten

/-- Decode `n` consecutive length-prefixed strings. -/
def decStrs : Nat → List Char → Option (List (List Char) × List Char)
  | 0, l => some ([], l)
  | n + 1, l =>
    match decStr l with
    | some (s, r) =>
      match decStrs n r with
      | some (xs, r2) => some (s :: xs, r2)
      | none => none
    | none => none

/-- Decode a serialized list of strings. -/
def decStrList (l : List Char) : Option (List (List Char) × List Char) :=
  let r := takeMarks l
  match r.2 with
  | ':' :: rest => decStrs r.1 rest
  | _ => none

/-- Modelled from the spec: one-character serialization of a theme. -/
def encTheme : Theme → Char
  | Theme.light => 'L'
  | Theme.dark => 'D'

/-- Decode a serialized theme. -/
def decTheme : List Char → Option (Theme × List Char)
  | 'L' :: r => some (Theme.light, r)
  | 'D' :: r => some (Theme.dark, r)
  | _ => none

/-- Modelled from the spec: one-character serialization of a notification
frequency. -/
def encFreq : NotificationFrequency → Char
  | NotificationFrequency.off => 'O'
  | NotificationFrequency.daily => 'd'
  | NotificationFrequency.everyOther => 'e'
  | NotificationFrequency.threeTimesDay => 't'
  | NotificationFrequency.weekly => 'w'

/-- Decode a serialized notification frequency. -/
def decFreq : List Char → Option (NotificationFrequency × List Char)
  | 'O' :: r => some (NotificationFrequency.off, r)
  | 'd' :: r => some (NotificationFrequency.daily, r)
  | 'e' :: r => some (NotificationFrequency.everyOther, r)
  | 't' :: r => some (NotificationFrequency.threeTimesDay, r)
  | 'w' :: r => some (NotificationFrequency.weekly, r)
  | _ => none

/-- Modelled from the spec: serialization of the full user profile. -/
def encProfile (p : UserProfile) : List Char :=
  encStr p.selectedPersona.data ++ encStr p.city.data ++
    encTheme p.theme :: [encFreq p.notificationFrequency]

/-- Decode a serialized user profile. -/
def decProfile (l : List Char) : Option (UserProfile × List Char) :=
  match decStr l with
  | some (persona, r1) =>
    match decStr r1 with
    | some (city, r2) =>
      match decTheme r2 with
      | some (th, r3) =>
        match decFreq r3 with
        | some (fr, r4) =>
          some ({ selectedPersona := String.mk persona
                , city := String.mk city
                , theme := th
                , notificationFrequency := fr }, r4)
        | none => none
      | none => none
    | none => none
  | none => none

/-- Modelled from the spec: serialization of the whole store — the selected
topic ids followed by the profile. -/
def encStore (st : Store) : List Char :=
  encStrList (st.selectedTopicIds.map String.data) ++ encProfile st.profile

/-- Decode a serialized store. -/
def decStore (l : List Char) : Option (Store × List Char) :=
  match decStrList l with
  | some (ids, r1) =>
    match decProfile r1 with
    | some (p, r2) =>
      some ({ selectedTopicIds := ids.map String.mk, profile := p }, r2)
    | none => none
  | none => none

/-- Modelled from the spec: storage service `exportUserData` — serializes
the full user data store to text. -/
def exportUserData (st : Store) : String :=
  String.mk (encStore st)

/-- Modelled from the spec: storage service `importUserData` — parses the
given text and replaces the store's contents when the text is a valid
serialized store, reporting success; on invalid text it reports failure and
leaves the store untouched. -/
def importUserData (content : String) : Option Store :=
  match decStore content.data with
  | some (st, []) => some st
  | _ => none

/-- `handleExportData` from `SettingsPage.tsx`: obtains the serialized
store text from `exportUserData` (the surrounding blob/download mechanics
are file-system plumbing outside the state contract). -/
def handleExportData (st : Store) : String :=
  exportUserData st

/-- The observable outcome of one `handleFileChange` call: the resulting
store, the alerts shown, and whether the application was reloaded. -/
structure ImportResult where
  store : Store
  alerts : List String
  reloaded : Bool
deriving DecidableEq, Repr

/-- `handleFileChange` from `SettingsPage.tsx`: when a file was selected
and read to a non-empty text, hands the text to `importUserData`; on
success it alerts and reloads the application, on failure it does nothing
(silent no-op).  `file` is the text content of the selected file, `none`
when no file was selected. -/
def handleFileChange (file : Option String) (st : Store) : ImportResult :=
  match file with
  | none => { store := st, alerts := [], reloaded := false }
  | some content =>
    if content = "" then { store := st, alerts := [], reloaded := false }
    else
      match importUserData content with
      | some st2 => { store := st2, alerts := ["Dáta obnovené."], reloaded := true }
      | none => { store := st, alerts := [], reloaded := false }

/-- The component operations named by the selection-cardinality invariant:
the mount-time load, topic selection, the profile edits (persona, city,
notification frequency) and the theme toggle. -/
inductive Op where
  | load
  | selectTopic (id : String)
  | persona (p : String)
  | cityEdit (c : String)
  | notif (freq : NotificationFrequency) (env : NotifEnv)
  | themeFlip
deriving Repr

/-- One component operation applied to the view and the store. -/
def step (o : Op) (s : View × Store) : View × Store :=
  match o with
  | Op.load => (mountLoad s.2 s.1, s.2)
  | Op.selectTopic id => toggleTopic id s.1 s.2
  | Op.persona p => handlePersonaChange p s.1 s.2
  | Op.cityEdit c => handleCityChange c s.1 s.2
  | Op.notif freq env =>
    let r := handleNotificationChange freq env s.1 s.2
    (r.view, r.store)
  | Op.themeFlip => handleToggleTheme s.1 s.2

/-- A sequence of component operations, applied in order. -/
def run (ops : List Op) (s : View × Store) : View × Store :=
  ops.foldl (fun s o => step o s) s

/-- The selection-cardinality invariant: both the in-memory selection and
the stored selection contain at most one topic id. -/
def selInv (s : View × Store) : Prop :=
  s.1.selectedIds.length ≤ 1 ∧ s.2.selectedTopicIds.length ≤ 1

lemma take_append_self (s t : List Char) : (s ++ t).take s.length = s := by
  induction s with
  | nil => simp
  | cons c cs ih => simp [ih]

lemma drop_append_self (s t : List Char) : (s ++ t).drop s.length = t := by
  induction s with
  | nil => simp
  | cons c cs ih => simp [ih]

lemma takeMarks_encLen (n : Nat) (u : List Char) :
    takeMarks (encLen n ++ ':' :: u) = (n, ':' :: u) := by
  induction n with
  | zero => simp [encLen, takeMarks]
  | succ n ih =>
    simp only [encLen] at ih ⊢
    rw [List.replicate_succ, List.cons_append]
    simp [takeMarks, ih]

lemma decStr_encStr (s t : List Char) : decStr (encStr s ++ t) = some (s, t) := by
  unfold decStr encStr
  rw [List.append_assoc, List.cons_append, takeMarks_encLen]
  simp [take_append_self, drop_append_self]

lemma decStrs_encStr (xs : List (List Char)) (t : List Char) :
    decStrs xs.length ((xs.map encStr).flatten ++ t) = some (xs, t) := by
  induction xs generalizing t with
  | nil => simp [decStrs]
  | cons x xs ih =>
    simp only [List.map_cons, List.flatten_cons, List.length_cons,
      List.append_assoc, decStrs, decStr_encStr, ih]

lemma decStrList_encStrList (xs : List (List Char)) (t : List Char) :
    decStrList (encStrList xs ++ t) = some (xs, t) := by
  unfold decStrList encStrList
  rw [List.append_assoc, List.cons_append, takeMarks_encLen]
  simp [decStrs_encStr]

lemma decTheme_encTheme (th : Theme) (t : List Char) :
    decTheme (encTheme th :: t) = some (th, t) := by
  cases th <;> rfl

lemma decFreq_encFreq (fr : NotificationFrequency) (t : List Char) :
    decFreq (encFreq fr :: t) = some (fr, t) := by
  cases fr <;> rfl

lemma decProfile_encProfile (p : UserProfile) (t : List Char) :
    decProfile (encProfile p ++ t) = some (p, t) := by
  unfold decProfile encProfile
  simp only [List.append_assoc, List.cons_append, List.nil_append,
    decStr_encStr, decTheme_encTheme, decFreq_encFreq]

lemma map_mk_map_data (l : List String) : (l.map String.data).map String.mk = l := by
  induction l with
  | nil => rfl
  | cons a l ih => simpa using ih

lemma decStore_encStore (st : Store) : decStore (encStore st) = some (st, []) := by
  have h : encStore st =
      encStrList (st.selectedTopicIds.map String.data) ++ (encProfile st.profile ++ []) := by
    simp [encStore]
  unfold decStore
  rw [h]
  simp only [decStrList_encStrList, decProfile_encProfile, map_mk_map_data]

lemma encStore_ne_nil (st : Store) : encStore st ≠ [] := by
  simp [encStore, encStrList]

lemma import_export (st : Store) : importUserData (exportUserData st) = some st := by
  unfold importUserData exportUserData
  have hd : (String.mk (encStore st)).data = encStore st := rfl
  rw [hd, decStore_encStore]

lemma export_ne_empty (st : Store) : exportUserData st ≠ "" := by
  intro h
  exact encStore_ne_nil st (congrArg String.data h)

lemma handleNotificationChange_selections (freq : NotificationFrequency)
    (env : NotifEnv) (v : View) (st : Store) :
    (handleNotificationChange freq env v st).view.selectedIds = v.selectedIds ∧
    (handleNotificationChange freq env v st).store.selectedTopicIds = st.selectedTopicIds := by
  unfold handleNotificationChange notifProceed saveUserProfile getUserProfile
  split
  · split
    · exact ⟨rfl, rfl⟩
    · split
      · split
        · exact ⟨rfl, rfl⟩
        · exact ⟨rfl, rfl⟩
      · exact ⟨rfl, rfl⟩
  · exact ⟨rfl, rfl⟩

lemma step_preserves_selInv (o : Op) (s : View × Store) (h : selInv s) :
    selInv (step o s) := by
  obtain ⟨h1, h2⟩ := h
  cases o with
  | load => exact ⟨h2, h2⟩
  | selectTopic id => exact ⟨by simp [step, toggleTopic], by
      simp [step, toggleTopic, saveSelectedTopicIds]⟩
  | persona p => exact ⟨h1, h2⟩
  | cityEdit c => exact ⟨h1, h2⟩
  | notif freq env =>
    have hsel := handleNotificationChange_selections freq env s.1 s.2
    exact ⟨hsel.1 ▸ h1, hsel.2 ▸ h2⟩
  | themeFlip => exact ⟨h1, h2⟩

lemma run_preserves_selInv (ops : List Op) (s : View × Store) (h : selInv s) :
    selInv (run ops s) := by
  induction ops generalizing s with
  | nil => exact h
  | cons o ops ih => exact ih (step o s) (step_preserves_selInv o s h)

/-- C1: `toggleTopic` replaces any existing selection with the singleton
list containing only the chosen topic id, saves exactly that singleton to
the store in the same call (in-memory selection and stored value are equal
afterwards), and selecting topic `b` after topic `a` leaves both the
in-memory and the stored selection equal to `[b]`. -/
theorem toggleTopic_replaces_with_singleton (a b : String) (v : View) (st : Store) :
    (toggleTopic b v st).1.selectedIds = [b] ∧
    (toggleTopic b v st).2.selectedTopicIds = [b] ∧
    (toggleTopic b v st).1.selectedIds = (toggleTopic b v st).2.selectedTopicIds ∧
    (toggleTopic b (toggleTopic a v st).1 (toggleTopic a v st).2).1.selectedIds = [b] ∧
    (toggleTopic b (toggleTopic a v st).1 (toggleTopic a v st).2).2.selectedTopicIds = [b] :=
  ⟨rfl, rfl, rfl, rfl, rfl⟩

/-- C9: selecting the same topic twice is idempotent — the second call
produces exactly the view and store of the first call, and the selection is
the singleton of that topic both in memory and in the store. -/
theorem toggleTopic_idempotent (id : String) (v : View) (st : Store) :
    toggleTopic id (toggleTopic id v st).1 (toggleTopic id v st).2 = toggleTopic id v st ∧
    (toggleTopic id v st).1.selectedIds = [id] ∧
    (toggleTopic id v st).2.selectedTopicIds = [id] :=
  ⟨rfl, rfl, rfl⟩

/-- C2: starting from an empty selection, no sequence of the component's
operations (mount-time load, topic selection, persona/city/notification
edits, theme toggle) produces a selection of more than one id, neither in
memory nor in the store. -/
theorem selection_cardinality_at_most_one (ops : List Op) (v : View) (st : Store)
    (hv : v.selectedIds = []) (hst : st.selectedTopicIds = []) :
    (run ops (v, st)).1.selectedIds.length ≤ 1 ∧
    (run ops (v, st)).2.selectedTopicIds.length ≤ 1 :=
  run_preserves_selInv ops (v, st) ⟨by simp [hv], by simp [hst]⟩

/-- Witness for C2 at a concrete operation sequence and the initial
view/store. -/
theorem selection_cardinality_at_most_one_witness :
    (run [Op.selectTopic "a", Op.load, Op.selectTopic "b"]
        (initialView Perm.defaultPerm, initialStore)).1.selectedIds.length ≤ 1 ∧
    (run [Op.selectTopic "a", Op.load, Op.selectTopic "b"]
        (initialView Perm.defaultPerm, initialStore)).2.selectedTopicIds.length ≤ 1 :=
  selection_cardinality_at_most_one _ _ _ rfl rfl

/-- C3: for a non-off frequency, `handleNotificationChange` rejects the
change with an alert and no mutation when the platform lacks notification
support; when support exists but permission is not granted it requests
permission, and the change proceeds only when the request resolves granted,
otherwise it is rejected with an alert and no mutation of the frequency or
the store. -/
theorem nonOff_frequency_requires_permission (freq : NotificationFrequency)
    (env : NotifEnv) (v : View) (st : Store) (h : freq ≠ NotificationFrequency.off) :
    (env.supported = false →
      (handleNotificationChange freq env v st).alerts ≠ [] ∧
      (handleNotificationChange freq env v st).view.notificationFreq = v.notificationFreq ∧
      (handleNotificationChange freq env v st).store = st) ∧
    (env.supported = true → env.permission ≠ Perm.granted →
      (handleNotificationChange freq env v st).requestedPermission = true ∧
      (env.requestGrants = false →
        (handleNotificationChange freq env v st).alerts ≠ [] ∧
        (handleNotificationChange freq env v st).view.notificationFreq = v.notificationFreq ∧
        (handleNotificationChange freq env v st).store = st) ∧
      (env.requestGrants = true →
        (handleNotificationChange freq env v st).view.notificationFreq = freq ∧
        (handleNotificationChange freq env v st).store.profile =
          { st.profile with notificationFrequency := freq })) := by
  obtain ⟨sup, perm, grants, post⟩ := env
  simp only [handleNotificationChange, if_pos h]
  cases sup with
  | false => simp
  | true =>
    by_cases hp : perm = Perm.granted
    · simp [hp, notifProceed, getUserProfile, saveUserProfile]
    · cases grants with
      | false => simp [hp]
      | true => simp [hp, notifProceed, getUserProfile, saveUserProfile]

/-- Witness for C3: with notifications unsupported, requesting daily
frequency leaves the store untouched. -/
theorem nonOff_frequency_requires_permission_witness :
    (handleNotificationChange NotificationFrequency.daily
        ⟨false, Perm.defaultPerm, false, Perm.denied⟩
        (initialView Perm.defaultPerm) initialStore).store = initialStore :=
  ((nonOff_frequency_requires_permission NotificationFrequency.daily
      ⟨false, Perm.defaultPerm, false, Perm.denied⟩
      (initialView Perm.defaultPerm) initialStore (by decide)).1 rfl).2.2

/-- C4: each profile edit is a read-modify-write — the profile written back
is the profile just read with only the single changed field overlaid: the
persona edit overlays `selectedPersona`, the city edit overlays `city`, and
the notification edit either performs no write at all or overlays exactly
`notificationFrequency`. -/
theorem profile_edits_read_modify_write (p c : String) (freq : NotificationFrequency)
    (env : NotifEnv) (v : View) (st : Store) :
    (handlePersonaChange p v st).2.profile = { getUserProfile st with selectedPersona := p } ∧
    (handleCityChange c v st).2.profile = { getUserProfile st with city := c } ∧
    ((handleNotificationChange freq env v st).store = st ∨
      (handleNotificationChange freq env v st).store.profile =
        { getUserProfile st with notificationFrequency := freq }) := by
  refine ⟨rfl, rfl, ?_⟩
  unfold handleNotificationChange notifProceed getUserProfile saveUserProfile
  split
  · split
    · exact Or.inl rfl
    · split
      · split
        · exact Or.inl rfl
        · exact Or.inr rfl
      · exact Or.inr rfl
  · exact Or.inr rfl

/-- C5: editing the city changes only the city field of the stored profile;
the persona, theme and notification-frequency fields written back equal
those of the profile read. -/
theorem city_edit_frame (c : String) (v : View) (st : Store) :
    (handleCityChange c v st).2.profile.selectedPersona = st.profile.selectedPersona ∧
    (handleCityChange c v st).2.profile.theme = st.profile.theme ∧
    (handleCityChange c v st).2.profile.notificationFrequency =
      st.profile.notificationFrequency ∧
    (handleCityChange c v st).2.profile.city = c :=
  ⟨rfl, rfl, rfl, rfl⟩

/-- C6: declining the hard-reset confirmation leaves the store untouched and
the wipe routine uninvoked; confirming wipes the store to its initial
default state (empty selection, default profile). -/
theorem hard_reset_confirmation (st : Store) :
    handleHardReset false st = (st, false) ∧
    handleHardReset true st = (initialStore, true) ∧
    initialStore.selectedTopicIds = [] :=
  ⟨rfl, rfl, rfl⟩

/-- C7: `handleFileChange` hands the file text to the import routine; when
no file is selected nothing happens, when the routine fails the call is a
silent no-op (no alert, no reload, store unchanged), and when it succeeds
an alert is shown, the application reloads and the imported store is in
effect. -/
theorem import_failure_silent (content : String) (st : Store) :
    handleFileChange none st = { store := st, alerts := [], reloaded := false } ∧
    (importUserData content = none →
      handleFileChange (some content) st =
        { store := st, alerts := [], reloaded := false }) ∧
    (∀ st2, importUserData content = some st2 →
      handleFileChange (some content) st =
        { store := st2, alerts := ["Dáta obnovené."], reloaded := true }) := by
  refine ⟨rfl, ?_, ?_⟩
  · intro hfail
    unfold handleFileChange
    by_cases hc : content = ""
    · simp [hc]
    · simp [hc, hfail]
  · intro st2 hsucc
    have h0 : importUserData "" = none := rfl
    unfold handleFileChange
    by_cases hc : content = ""
    · rw [hc, h0] at hsucc
      exact Option.noConfusion hsucc
    · simp [hc, hsucc]

/-- Witness for C7 on a failing input: importing the text `"x"` is a silent
no-op. -/
theorem import_failure_silent_witness :
    handleFileChange (some "x") initialStore =
      { store := initialStore, alerts := [], reloaded := false } :=
  (import_failure_silent "x" initialStore).2.1 (by decide)

/-- C8: export followed by import of the exact exported content is a
round-trip — for every store state the import routine accepts the exported
text and restores the store (its profile and topic selection), and at the
handler level feeding the exported text to `handleFileChange` succeeds and
installs the exported store. -/
theorem export_import_round_trip (st st0 : Store) :
    importUserData (exportUserData st) = some st ∧
    handleFileChange (some (handleExportData st)) st0 =
      { store := st, alerts := ["Dáta obnovené."], reloaded := true } := by
  refine ⟨import_export st, ?_⟩
  simp only [handleFileChange, handleExportData, if_neg (export_ne_empty st),
    import_export]

/-- C10: setting the frequency to off never consults the notification
service — no support query, no permission query, no permission request —
raises no alert, and unconditionally records off in the view and persists
the profile with only the frequency overlaid, whatever the platform
state. -/
theorem off_frequency_unconditional (env : NotifEnv) (v : View) (st : Store) :
    (handleNotificationChange NotificationFrequency.off env v st).queriedSupport = false ∧
    (handleNotificationChange NotificationFrequency.off env v st).queriedPermission = false ∧
    (handleNotificationChange NotificationFrequency.off env v st).requestedPermission = false ∧
    (handleNotificationChange NotificationFrequency.off env v st).alerts = [] ∧
    (handleNotificationChange NotificationFrequency.off env v st).view.notificationFreq =
      NotificationFrequency.off ∧
    (handleNotificationChange NotificationFrequency.off env v st).store.profile =
      { st.profile with notificationFrequency := NotificationFrequency.off } :=
  ⟨rfl, rfl, rfl, rfl, rfl, rfl⟩

end Settings
